import Mathlib

/-!
Shallow embedding of `src/bmi_calculator/performance_dashboard_server.py`
(the `PerformanceMetrics` accumulator and the module-level query handlers).

Modelling conventions:
- Python floats are modelled as exact rationals (`ℚ`).
- Wall-clock timestamps (`datetime.now().isoformat()`, `time.time()`) are
  modelled as an abstract `ℕ` value passed into each operation; a single
  operation uses one timestamp for all the reads it performs.
- The `float('inf')` sentinel for `min_response_time` is modelled as
  `Option ℚ` with `none` standing for the `+inf` sentinel (note
  `min(inf, x) = x` for every real `x`, which is exactly the `none` case).
- `collections.deque(maxlen=m)` is modelled as a `List` with an append
  that evicts from the front once the length exceeds `m`.
- Python truthiness of `error_message` (`if error_message:`) is modelled as
  `error_message` being `some m` with `m ≠ ""`.
- Python truthiness of `limit` (`if limit:`) is modelled as the integer
  being nonzero (the `None` default is `Option.none`).
-/

/-- Floor of a rational, computed by floor division of numerator by
denominator (kernel-reducible). -/
def ratFloor (q : ℚ) : ℤ := Int.fdiv q.num (q.den : ℤ)

/-- Python `round(q, n)`: banker's rounding (round half to even) of `q`
to `n` decimal places, in exact rational arithmetic. -/
def pyRound (q : ℚ) (n : ℕ) : ℚ :=
  let m : ℚ := q * (10 : ℚ) ^ n
  let f : ℤ := ratFloor m
  let r : ℚ := m - (f : ℚ)
  let z : ℤ :=
    if r < 1/2 then f
    else if r > 1/2 then f + 1
    else if f % 2 = 0 then f else f + 1
  (z : ℚ) / (10 : ℚ) ^ n

/-- Append of `collections.deque(maxlen)`: add `x` at the back, evicting from
the front whatever exceeds the capacity. -/
def dequeAppend (maxlen : ℕ) (xs : List α) (x : α) : List α :=
  let ys := xs ++ [x]
  if maxlen < ys.length then ys.drop (ys.length - maxlen) else ys

/-- Python `xs[i:]` slicing, including negative start indices. -/
def pySliceFrom (xs : List α) (i : ℤ) : List α :=
  if 0 ≤ i then xs.drop i.toNat else xs.drop ((xs.length : ℤ) + i).toNat

/-- The `self.metrics` dictionary of `PerformanceMetrics`. -/
structure Metrics where
  total_requests : ℕ
  successful_requests : ℕ
  failed_requests : ℕ
  total_response_time : ℚ
  average_response_time : ℚ
  min_response_time : Option ℚ
  max_response_time : ℚ
  error_rate : ℚ
  success_rate : ℚ
  uptime_seconds : ℕ
  start_time : ℕ
  last_updated : ℕ
  deriving Repr, DecidableEq

/-- One entry of `self.request_history`. -/
structure RequestRecord where
  timestamp : ℕ
  endpoint : String
  response_time : ℚ
  success : Bool
  error : Option String
  deriving Repr, DecidableEq

/-- One entry of `self.error_log`. -/
structure ErrorRecord where
  timestamp : ℕ
  endpoint : String
  error : String
  deriving Repr, DecidableEq

/-- The full mutable state of a `PerformanceMetrics` instance. -/
structure PerformanceMetrics where
  max_history : ℕ
  metrics : Metrics
  request_history : List RequestRecord
  error_log : List ErrorRecord
  server_start_time : ℕ
  deriving Repr, DecidableEq

/-- The initial `self.metrics` dictionary built in `__init__` (and rebuilt
verbatim in `reset_metrics`). -/
def Metrics.initial (now : ℕ) : Metrics :=
  { total_requests := 0
    successful_requests := 0
    failed_requests := 0
    total_response_time := 0
    average_response_time := 0
    min_response_time := none
    max_response_time := 0
    error_rate := 0
    success_rate := 0
    uptime_seconds := 0
    start_time := now
    last_updated := now }

/-- Embeds `PerformanceMetrics.__init__(max_history=100)` at wall-clock `now`. -/
def PerformanceMetrics.init (max_history : ℕ) (now : ℕ) : PerformanceMetrics :=
  { max_history := max_history
    metrics := Metrics.initial now
    request_history := []
    error_log := []
    server_start_time := now }

/-- Embeds `PerformanceMetrics.record_request(endpoint, response_time, success,
error_message=None)` at wall-clock `now`. -/
def PerformanceMetrics.record_request (s : PerformanceMetrics) (now : ℕ)
    (endpoint : String) (response_time : ℚ) (success : Bool)
    (error_message : Option String) : PerformanceMetrics :=
  let m := s.metrics
  let total := m.total_requests + 1
  let succ := if success then m.successful_requests + 1 else m.successful_requests
  let failed := if success then m.failed_requests else m.failed_requests + 1
  let elog :=
    if success then s.error_log
    else match error_message with
      | some msg =>
          if msg ≠ "" then
            dequeAppend 50 s.error_log
              { timestamp := now, endpoint := endpoint, error := msg }
          else s.error_log
      | none => s.error_log
  let trt := m.total_response_time + response_time
  let minRT : Option ℚ :=
    match m.min_response_time with
    | none => some response_time
    | some v => some (min v response_time)
  let maxRT := max m.max_response_time response_time
  let avg := trt / (total : ℚ)
  let sr := if 0 < total then (succ : ℚ) / (total : ℚ) * 100 else m.success_rate
  let er := if 0 < total then (failed : ℚ) / (total : ℚ) * 100 else m.error_rate
  { s with
    metrics :=
      { total_requests := total
        successful_requests := succ
        failed_requests := failed
        total_response_time := trt
        average_response_time := avg
        min_response_time := minRT
        max_response_time := maxRT
        success_rate := sr
        error_rate := er
        uptime_seconds := now - s.server_start_time
        start_time := m.start_time
        last_updated := now }
    request_history :=
      dequeAppend s.max_history s.request_history
        { timestamp := now, endpoint := endpoint
          response_time := pyRound response_time 4
          success := success, error := error_message }
    error_log := elog }

/-- The rounded copy of the metrics dictionary returned by `get_metrics`
(`min_response_time` has already been coerced from the sentinel). -/
structure MetricsView where
  total_requests : ℕ
  successful_requests : ℕ
  failed_requests : ℕ
  total_response_time : ℚ
  average_response_time : ℚ
  min_response_time : ℚ
  max_response_time : ℚ
  error_rate : ℚ
  success_rate : ℚ
  uptime_seconds : ℕ
  start_time : ℕ
  last_updated : ℕ
  deriving Repr, DecidableEq

/-- Embeds `PerformanceMetrics.get_metrics()`: copy of `self.metrics` with the
`inf` sentinel replaced by `0.0` and presentation rounding applied. -/
def PerformanceMetrics.get_metrics (s : PerformanceMetrics) : MetricsView :=
  let m := s.metrics
  let minRT : ℚ :=
    match m.min_response_time with
    | none => 0
    | some v => v
  { total_requests := m.total_requests
    successful_requests := m.successful_requests
    failed_requests := m.failed_requests
    total_response_time := m.total_response_time
    average_response_time := pyRound m.average_response_time 4
    min_response_time := pyRound minRT 4
    max_response_time := pyRound m.max_response_time 4
    success_rate := pyRound m.success_rate 2
    error_rate := pyRound m.error_rate 2
    uptime_seconds := m.uptime_seconds
    start_time := m.start_time
    last_updated := m.last_updated }

/-- Embeds `PerformanceMetrics.get_request_history(limit=None)`: a copy of the
request log, sliced to the last `limit` entries when `limit` is truthy. -/
def PerformanceMetrics.get_request_history (s : PerformanceMetrics)
    (limit : Option ℤ) : List RequestRecord :=
  let history := s.request_history
  match limit with
  | none => history
  | some l => if l ≠ 0 then pySliceFrom history (-l) else history

/-- Embeds `PerformanceMetrics.get_error_log(limit=None)`. -/
def PerformanceMetrics.get_error_log (s : PerformanceMetrics)
    (limit : Option ℤ) : List ErrorRecord :=
  let errors := s.error_log
  match limit with
  | none => errors
  | some l => if l ≠ 0 then pySliceFrom errors (-l) else errors

/-- Embeds `PerformanceMetrics.reset_metrics()` at wall-clock `now`. -/
def PerformanceMetrics.reset_metrics (s : PerformanceMetrics) (now : ℕ) :
    PerformanceMetrics :=
  { s with
    metrics := Metrics.initial now
    request_history := []
    error_log := []
    server_start_time := now }

/-- One `record_request` call's arguments (with its abstract timestamp). -/
structure Call where
  now : ℕ
  endpoint : String
  response_time : ℚ
  success : Bool
  error_message : Option String
  deriving Repr, DecidableEq

/-- Replay a sequence of `record_request` calls against a state. -/
def runCalls (s : PerformanceMetrics) (calls : List Call) : PerformanceMetrics :=
  calls.foldl
    (fun st c =>
      st.record_request c.now c.endpoint c.response_time c.success c.error_message)
    s

/-- The request record that `record_request` appends for a given call. -/
def Call.toRecord (c : Call) : RequestRecord :=
  { timestamp := c.now, endpoint := c.endpoint
    response_time := pyRound c.response_time 4
    success := c.success, error := c.error_message }

/-- An externally supplied `limit` argument of the query handlers: either a
Python `int` or some non-integer value (the `isinstance(limit, int)` check). -/
inductive LimitArg where
  | int : ℤ → LimitArg
  | nonInt : LimitArg
  deriving Repr, DecidableEq

/-- The uniform result envelope of the query handlers: `status success` with
`data` and `count`, or `status error` with a message. -/
inductive Envelope (α : Type) where
  | ok : α → ℕ → Envelope α
  | err : String → Envelope α
  deriving Repr, DecidableEq

/-- Whether an envelope has `status == "error"`. -/
def Envelope.isErr : Envelope α → Bool
  | .ok _ _ => false
  | .err _ => true

/-- Length of the `data` list of an envelope (0 for an error envelope). -/
def Envelope.dataLength : Envelope (List α) → ℕ
  | .ok d _ => d.length
  | .err _ => 0

/-- Whether the limit argument is a positive Python integer. -/
def LimitArg.isPosInt : LimitArg → Bool
  | .int l => decide (1 ≤ l)
  | .nonInt => false

/-- The limit argument clamped to a natural number (0 for a non-integer). -/
def LimitArg.capNat : LimitArg → ℕ
  | .int l => l.toNat
  | .nonInt => 0

/-- Module-level handler `get_request_history(limit=20)`: validates the
limit, caps it at 100, and wraps the accumulator call in an envelope. -/
def get_request_history (s : PerformanceMetrics) (limit : LimitArg) :
    Envelope (List RequestRecord) :=
  match limit with
  | .nonInt => .err "Limit must be a positive integer"
  | .int l =>
    if l < 1 then .err "Limit must be a positive integer"
    else
      let capped := min l 100
      let history := s.get_request_history (some capped)
      .ok history history.length

/-- Module-level handler `get_error_log(limit=10)`: validates the limit,
caps it at 50, and wraps the accumulator call in an envelope. -/
def get_error_log (s : PerformanceMetrics) (limit : LimitArg) :
    Envelope (List ErrorRecord) :=
  match limit with
  | .nonInt => .err "Limit must be a positive integer"
  | .int l =>
    if l < 1 then .err "Limit must be a positive integer"
    else
      let capped := min l 50
      let errors := s.get_error_log (some capped)
      .ok errors errors.length

/-- A `task_name` argument: a Python string, or a non-string value carrying
its f-string rendering. -/
inductive TaskNameArg where
  | str : String → TaskNameArg
  | nonStr : String → TaskNameArg
  deriving Repr, DecidableEq

/-- How the argument renders inside `f"simulate_agent_task:{task_name}"`. -/
def TaskNameArg.render : TaskNameArg → String
  | .str sv => sv
  | .nonStr r => r

/-- A `duration` argument: a Python number, or a non-numeric value. -/
inductive DurationArg where
  | num : ℚ → DurationArg
  | nonNum : DurationArg
  deriving Repr, DecidableEq

/-- A `should_fail` argument: a Python bool, or a non-boolean value. -/
inductive ShouldFailArg where
  | bool : Bool → ShouldFailArg
  | nonBool : ShouldFailArg
  deriving Repr, DecidableEq

/-- The input-validation sequence of `simulate_agent_task`: the message of
the first `ValueError` raised, or `none` when all three checks pass. -/
def validateTask (tn : TaskNameArg) (dur : DurationArg) (sf : ShouldFailArg) :
    Option String :=
  match tn with
  | .nonStr _ => some "Task name must be a non-empty string"
  | .str sv =>
    if sv.trim = "" then some "Task name must be a non-empty string"
    else
      match dur with
      | .nonNum => some "Duration must be a non-negative number"
      | .num d =>
        if d < 0 then some "Duration must be a non-negative number"
        else
          match sf with
          | .nonBool => some "should_fail must be a boolean"
          | .bool _ => none

/-- The dictionary returned by `simulate_agent_task`. -/
structure SimResult where
  status : String
  task_name : String
  duration : ℚ
  message : String
  deriving Repr, DecidableEq

/-- Embeds `simulate_agent_task(task_name, duration, should_fail)` against tracker
state `s`; `response_time` is the elapsed wall-clock time measured around
the simulated work, `now` the abstract timestamp of the call. -/
def simulate_agent_task (s : PerformanceMetrics) (now : ℕ) (response_time : ℚ)
    (tn : TaskNameArg) (dur : DurationArg) (sf : ShouldFailArg) :
    SimResult × PerformanceMetrics :=
  let endpoint := "simulate_agent_task:" ++ tn.render
  match validateTask tn dur sf with
  | some msg =>
    ({ status := "error", task_name := tn.render
       duration := pyRound response_time 4, message := msg },
     s.record_request now endpoint response_time false (some msg))
  | none =>
    match sf with
    | .bool true =>
      let msg := "Simulated failure for task: " ++ tn.render
      ({ status := "error", task_name := tn.render
         duration := pyRound response_time 4, message := msg },
       s.record_request now endpoint response_time false (some msg))
    | _ =>
      ({ status := "success", task_name := tn.render
         duration := pyRound response_time 4
         message := "Task \x27" ++ tn.render ++ "\x27 completed successfully" },
       s.record_request now endpoint response_time true none)

/-! ### Derived definitions used by the claims -/

/-- Invariant of C1: the success and failure counters sum to the total. -/
def countsInv (s : PerformanceMetrics) : Prop :=
  s.metrics.successful_requests + s.metrics.failed_requests = s.metrics.total_requests

/-- Specification of the stored rates: each equals the corresponding
percentage of the total, and both are 0 before any request. -/
def ratesSpec (s : PerformanceMetrics) : Prop :=
  s.metrics.success_rate =
    (if s.metrics.total_requests = 0 then 0 else
      (s.metrics.successful_requests : ℚ) / (s.metrics.total_requests : ℚ) * 100) ∧
  s.metrics.error_rate =
    (if s.metrics.total_requests = 0 then 0 else
      (s.metrics.failed_requests : ℚ) / (s.metrics.total_requests : ℚ) * 100)

/-- A sequence of 7 successful and 3 failed `record_request` calls. -/
def sevenThree : List Call :=
  List.replicate 7
    { now := 0, endpoint := "e", response_time := 0, success := true, error_message := none } ++
  List.replicate 3
    { now := 0, endpoint := "e", response_time := 0, success := false, error_message := some "Error" }

/-- Three successful calls with response times 0.1, 0.2, 0.3 seconds. -/
def responses123 : List Call :=
  [{ now := 1, endpoint := "e1", response_time := 1/10, success := true, error_message := none },
   { now := 2, endpoint := "e2", response_time := 2/10, success := true, error_message := none },
   { now := 3, endpoint := "e3", response_time := 3/10, success := true, error_message := none }]

/-- Two concrete calls used to exercise the bounded request log. -/
def c6calls : List Call :=
  [{ now := 1, endpoint := "a", response_time := 0, success := true, error_message := none },
   { now := 2, endpoint := "b", response_time := 0, success := false, error_message := none }]

/-! ### Helper lemmas -/

lemma ratFloor_intCast (z : ℤ) : ratFloor (z : ℚ) = z := by
  unfold ratFloor
  simp [Rat.num_intCast, Rat.den_intCast]

lemma pyRound_eq_self (q : ℚ) (n : ℕ) (z : ℤ) (h : q * (10:ℚ)^n = (z : ℚ)) :
    pyRound q n = q := by
  have h10 : ((10:ℚ)^n) ≠ 0 := by positivity
  unfold pyRound
  simp only [h, ratFloor_intCast, sub_self]
  norm_num
  rw [← h, mul_div_assoc, div_self h10, mul_one]

lemma pyRound_zero (n : ℕ) : pyRound 0 n = 0 :=
  pyRound_eq_self 0 n 0 (by norm_num)

lemma runCalls_preserves {P : PerformanceMetrics → Prop}
    (h : ∀ (s : PerformanceMetrics) (c : Call),
      P s → P (s.record_request c.now c.endpoint c.response_time c.success c.error_message)) :
    ∀ (calls : List Call) (s : PerformanceMetrics), P s → P (runCalls s calls) := by
  intro calls
  induction calls with
  | nil => intro s hs; exact hs
  | cons c cs ih => intro s hs; exact ih _ (h s c hs)

lemma dequeAppend_length_le (N : ℕ) (xs : List α) (x : α) (h : xs.length ≤ N) :
    (dequeAppend N xs x).length ≤ N := by
  simp only [dequeAppend]
  split <;>
    (simp only [List.length_drop, List.length_append, List.length_cons,
      List.length_nil] at *; omega)

lemma foldl_dequeAppend (N : ℕ) (hN : 1 ≤ N) :
    ∀ (ys xs : List α), xs.length ≤ N →
      List.foldl (dequeAppend N) xs ys = (xs ++ ys).drop (xs.length + ys.length - N) := by
  intro ys
  induction ys with
  | nil =>
    intro xs h
    simp [Nat.sub_eq_zero_of_le h]
  | cons y ys ih =>
    intro xs h
    rw [List.foldl_cons, ih (dequeAppend N xs y) (dequeAppend_length_le N xs y h)]
    by_cases hc : N < xs.length + 1
    · have hx : xs.length = N := by omega
      have hd : dequeAppend N xs y = (xs ++ [y]).drop 1 := by
        simp only [dequeAppend]
        rw [if_pos (by simp [hx])]
        simp [hx]
      rw [hd, List.length_drop, ← List.drop_append_of_le_length (by simp),
        List.drop_drop]
      have hys : xs ++ [y] ++ ys = xs ++ y :: ys := by simp
      rw [hys]
      congr 1
      simp only [List.length_append, List.length_cons, List.length_nil]
      omega
    · have hd : dequeAppend N xs y = xs ++ [y] := by
        simp only [dequeAppend]
        rw [if_neg (by simp; omega)]
      rw [hd]
      have hys : (xs ++ [y]) ++ ys = xs ++ y :: ys := by simp
      rw [hys]
      congr 1
      simp only [List.length_append, List.length_cons, List.length_nil]
      omega

lemma runCalls_request_history : ∀ (calls : List Call) (s : PerformanceMetrics),
    (runCalls s calls).request_history =
      List.foldl (dequeAppend s.max_history) s.request_history (calls.map Call.toRecord) ∧
    (runCalls s calls).max_history = s.max_history := by
  intro calls
  induction calls with
  | nil => intro s; exact ⟨rfl, rfl⟩
  | cons c cs ih =>
    intro s
    obtain ⟨h1, h2⟩ :=
      ih (s.record_request c.now c.endpoint c.response_time c.success c.error_message)
    exact ⟨h1, h2⟩

lemma pySliceFrom_neg (xs : List α) (L : ℤ) (hL : 0 < L) :
    pySliceFrom xs (-L) = xs.drop (xs.length - L.toNat) := by
  unfold pySliceFrom
  rw [if_neg (by omega)]
  congr 1
  omega

lemma get_request_history_some (s : PerformanceMetrics) (L : ℤ) (hL : 0 < L) :
    s.get_request_history (some L) =
      s.request_history.drop (s.request_history.length - L.toNat) := by
  simp only [PerformanceMetrics.get_request_history]
  rw [if_pos (by omega)]
  exact pySliceFrom_neg _ _ hL

lemma get_error_log_some (s : PerformanceMetrics) (L : ℤ) (hL : 0 < L) :
    s.get_error_log (some L) = s.error_log.drop (s.error_log.length - L.toNat) := by
  simp only [PerformanceMetrics.get_error_log]
  rw [if_pos (by omega)]
  exact pySliceFrom_neg _ _ hL

lemma invariants_runCalls (mh t0 : ℕ) (calls : List Call) :
    countsInv (runCalls (PerformanceMetrics.init mh t0) calls) ∧
    ratesSpec (runCalls (PerformanceMetrics.init mh t0) calls) := by
  refine @runCalls_preserves (fun st => countsInv st ∧ ratesSpec st) ?_ calls _ ?_
  · intro s c hs
    constructor
    · obtain ⟨hs1, _⟩ := hs
      unfold countsInv at *
      simp only [PerformanceMetrics.record_request]
      cases c.success <;> simp <;> omega
    · unfold ratesSpec
      simp only [PerformanceMetrics.record_request]
      constructor <;> simp
  · exact ⟨rfl, by constructor <;> rfl⟩

lemma rates_sum (s : PerformanceMetrics) (h1 : countsInv s) (h2 : ratesSpec s) :
    s.metrics.success_rate + s.metrics.error_rate =
      if s.metrics.total_requests = 0 then 0 else 100 := by
  obtain ⟨hsr, her⟩ := h2
  rw [hsr, her]
  by_cases h : s.metrics.total_requests = 0
  · simp [h]
  · simp only [if_neg h]
    have ht : ((s.metrics.total_requests : ℚ)) ≠ 0 := Nat.cast_ne_zero.mpr h
    have hc : ((s.metrics.successful_requests : ℚ)) + ((s.metrics.failed_requests : ℚ)) =
        (s.metrics.total_requests : ℚ) := by
      exact_mod_cast congrArg (fun n : ℕ => (n : ℚ)) h1
    field_simp
    linarith

lemma validateTask_msg_ne_empty (tn : TaskNameArg) (dur : DurationArg)
    (sf : ShouldFailArg) (msg : String) (h : validateTask tn dur sf = some msg) :
    msg ≠ "" := by
  cases tn <;> cases dur <;> cases sf <;>
    simp only [validateTask] at h <;>
    (try split_ifs at h) <;>
    (cases h; decide)

/-! ### Claim theorems -/

/-- C1: for every sequence of `record_request` calls replayed from a fresh
accumulator, after each call (that is, after every prefix of the sequence)
`successful_requests + failed_requests = total_requests`. -/
theorem c1_counts_invariant (mh t0 : ℕ) (calls : List Call) (n : ℕ) :
    countsInv (runCalls (PerformanceMetrics.init mh t0) (calls.take n)) := by
  refine runCalls_preserves ?_ _ _ ?_
  · intro s c hs
    unfold countsInv at *
    simp only [PerformanceMetrics.record_request]
    cases c.success <;> simp <;> omega
  · simp [countsInv, PerformanceMetrics.init, Metrics.initial]

/-- C2 counterexample: a failed `record_request` call with an absent (or
empty) `error_message` appends nothing to the error log, contradicting the
claim that every failed call appends an error record. -/
theorem c2_counterexample :
    ((PerformanceMetrics.init 100 0).record_request 1 "ep" 0 false none).error_log = [] ∧
    ((PerformanceMetrics.init 100 0).record_request 1 "ep" 0 false (some "")).error_log = [] := by
  constructor <;> rfl

/-- C2 amended: a failed `record_request` call appends an error record to
the bounded error log (evicting the oldest at capacity) exactly when
`error_message` is present and non-empty; failed calls with an absent or
empty message leave the error log unchanged. -/
theorem c2_error_log_append (s : PerformanceMetrics) (now : ℕ) (ep : String)
    (rt : ℚ) (m : String) (hm : m ≠ "") :
    (s.record_request now ep rt false (some m)).error_log =
      dequeAppend 50 s.error_log { timestamp := now, endpoint := ep, error := m } ∧
    (s.record_request now ep rt false none).error_log = s.error_log ∧
    (s.record_request now ep rt false (some "")).error_log = s.error_log := by
  refine ⟨?_, rfl, rfl⟩
  simp [PerformanceMetrics.record_request, hm]

/-- Witness for the amended C2 at a concrete failed call. -/
theorem c2_witness :
    ("boom" ≠ "") ∧
    (((PerformanceMetrics.init 100 0).record_request 1 "ep" 0 false (some "boom")).error_log =
       dequeAppend 50 (PerformanceMetrics.init 100 0).error_log
         { timestamp := 1, endpoint := "ep", error := "boom" } ∧
     ((PerformanceMetrics.init 100 0).record_request 1 "ep" 0 false none).error_log =
       (PerformanceMetrics.init 100 0).error_log ∧
     ((PerformanceMetrics.init 100 0).record_request 1 "ep" 0 false (some "")).error_log =
       (PerformanceMetrics.init 100 0).error_log) :=
  ⟨by decide, c2_error_log_append _ 1 "ep" 0 "boom" (by decide)⟩

/-- C3: when zero requests have been recorded since construction or since
the last reset, `get_metrics` reports `min_response_time` as 0, not the
internal infinity sentinel. -/
theorem c3_min_zero_when_empty (mh now : ℕ) (s : PerformanceMetrics) (now2 : ℕ) :
    ((PerformanceMetrics.init mh now).get_metrics).min_response_time = 0 ∧
    ((s.reset_metrics now2).get_metrics).min_response_time = 0 := by
  constructor <;>
    simp [PerformanceMetrics.get_metrics, PerformanceMetrics.init,
      PerformanceMetrics.reset_metrics, Metrics.initial, pyRound_zero]

/-- C4: after every sequence of `record_request` calls the stored
`success_rate` and `error_rate` equal `successful/total*100` and
`failed/total*100` (0 when no requests), their sum is 100 whenever
`total_requests > 0` and 0 otherwise, and recording 7 successes and 3
failures yields `success_rate = 70` and `error_rate = 30`. -/
theorem c4_rates (mh t0 : ℕ) (calls : List Call) :
    ratesSpec (runCalls (PerformanceMetrics.init mh t0) calls) ∧
    ((runCalls (PerformanceMetrics.init mh t0) calls).metrics.success_rate +
        (runCalls (PerformanceMetrics.init mh t0) calls).metrics.error_rate =
      if (runCalls (PerformanceMetrics.init mh t0) calls).metrics.total_requests = 0
      then 0 else 100) ∧
    (runCalls (PerformanceMetrics.init 100 0) sevenThree).metrics.success_rate = 70 ∧
    (runCalls (PerformanceMetrics.init 100 0) sevenThree).metrics.error_rate = 30 := by
  obtain ⟨h1, h2⟩ := invariants_runCalls mh t0 calls
  obtain ⟨h1s, h2s⟩ := invariants_runCalls 100 0 sevenThree
  have htot : (runCalls (PerformanceMetrics.init 100 0) sevenThree).metrics.total_requests = 10 := rfl
  have hsucc : (runCalls (PerformanceMetrics.init 100 0) sevenThree).metrics.successful_requests = 7 := rfl
  have hfail : (runCalls (PerformanceMetrics.init 100 0) sevenThree).metrics.failed_requests = 3 := rfl
  refine ⟨h2, rates_sum _ h1 h2, ?_, ?_⟩
  · rw [h2s.1, htot, hsucc]
    norm_num
  · rw [h2s.2, htot, hfail]
    norm_num

/-- C5: `reset_metrics` followed by `get_metrics` agrees with a freshly
constructed instance of the same capacity, both bounded logs are empty
after the reset, and in fact the whole state equals the fresh state. -/
theorem c5_reset_equals_fresh (s : PerformanceMetrics) (now : ℕ) :
    (s.reset_metrics now).get_metrics = (PerformanceMetrics.init s.max_history now).get_metrics ∧
    (s.reset_metrics now).request_history = [] ∧
    (s.reset_metrics now).error_log = [] ∧
    s.reset_metrics now = PerformanceMetrics.init s.max_history now :=
  ⟨rfl, rfl, rfl, rfl⟩

/-- C6: recording `N + k` requests into a fresh accumulator whose request
log is bounded at capacity `N >= 1` leaves the log holding exactly the last
`N` request records in insertion order. -/
theorem c6_bounded_log (N k t0 : ℕ) (calls : List Call) (hN : 1 ≤ N)
    (hlen : calls.length = N + k) :
    (runCalls (PerformanceMetrics.init N t0) calls).request_history =
      (calls.map Call.toRecord).drop k := by
  obtain ⟨h1, _⟩ := runCalls_request_history calls (PerformanceMetrics.init N t0)
  rw [h1]
  rw [show (PerformanceMetrics.init N t0).request_history = [] from rfl,
    show (PerformanceMetrics.init N t0).max_history = N from rfl]
  rw [foldl_dequeAppend N hN _ [] (by simp)]
  simp [List.length_map, hlen, Nat.add_sub_cancel_left]

/-- Witness for C6 at capacity 1 with two recorded calls. -/
theorem c6_witness :
    (1 ≤ 1) ∧ (c6calls.length = 1 + 1) ∧
    (runCalls (PerformanceMetrics.init 1 0) c6calls).request_history =
      (c6calls.map Call.toRecord).drop 1 :=
  ⟨by decide, rfl, c6_bounded_log 1 1 0 c6calls (by decide) rfl⟩

/-- C7: for every positive limit `L`, `get_request_history` returns the
most recent `min(L, retained)` request records in insertion order, with no
error when `L` exceeds the retained size; with the limit omitted it returns
all retained records; the call is a pure read of the log. The same contract
holds for `get_error_log` over the error log. -/
theorem c7_history_contract (s : PerformanceMetrics) (L : ℤ) (hL : 0 < L) :
    s.get_request_history (some L) =
      s.request_history.drop (s.request_history.length - L.toNat) ∧
    (s.get_request_history (some L)).length = min L.toNat s.request_history.length ∧
    s.get_request_history none = s.request_history ∧
    s.get_error_log (some L) = s.error_log.drop (s.error_log.length - L.toNat) ∧
    (s.get_error_log (some L)).length = min L.toNat s.error_log.length ∧
    s.get_error_log none = s.error_log := by
  refine ⟨get_request_history_some s L hL, ?_, rfl,
    get_error_log_some s L hL, ?_, rfl⟩
  · rw [get_request_history_some s L hL, List.length_drop]
    omega
  · rw [get_error_log_some s L hL, List.length_drop]
    omega

/-- Witness for C7 at limit 5 on a fresh accumulator. -/
theorem c7_witness :
    ((0 : ℤ) < 5) ∧
    ((PerformanceMetrics.init 100 0).get_request_history (some 5) =
      (PerformanceMetrics.init 100 0).request_history.drop
        ((PerformanceMetrics.init 100 0).request_history.length - (5 : ℤ).toNat) ∧
    ((PerformanceMetrics.init 100 0).get_request_history (some 5)).length =
      min (5 : ℤ).toNat (PerformanceMetrics.init 100 0).request_history.length ∧
    (PerformanceMetrics.init 100 0).get_request_history none =
      (PerformanceMetrics.init 100 0).request_history ∧
    (PerformanceMetrics.init 100 0).get_error_log (some 5) =
      (PerformanceMetrics.init 100 0).error_log.drop
        ((PerformanceMetrics.init 100 0).error_log.length - (5 : ℤ).toNat) ∧
    ((PerformanceMetrics.init 100 0).get_error_log (some 5)).length =
      min (5 : ℤ).toNat (PerformanceMetrics.init 100 0).error_log.length ∧
    (PerformanceMetrics.init 100 0).get_error_log none =
      (PerformanceMetrics.init 100 0).error_log) :=
  ⟨by decide, c7_history_contract (PerformanceMetrics.init 100 0) 5 (by decide)⟩

/-- C8: recording response times 0.1, 0.2, 0.3 as three successes yields a
snapshot with min 0.1, max 0.3 and average 0.2 (rounded to 4 decimals at
read time), while the stored running sum and stored average stay exact and
unrounded. -/
theorem c8_latency_example :
    (runCalls (PerformanceMetrics.init 100 0) responses123).get_metrics.min_response_time = 1/10 ∧
    (runCalls (PerformanceMetrics.init 100 0) responses123).get_metrics.max_response_time = 3/10 ∧
    (runCalls (PerformanceMetrics.init 100 0) responses123).get_metrics.average_response_time = 1/5 ∧
    (runCalls (PerformanceMetrics.init 100 0) responses123).metrics.total_response_time =
      1/10 + 2/10 + 3/10 ∧
    (runCalls (PerformanceMetrics.init 100 0) responses123).metrics.average_response_time =
      (1/10 + 2/10 + 3/10) / 3 := by
  have hmin : (runCalls (PerformanceMetrics.init 100 0) responses123).metrics.min_response_time =
      some (min (min (1/10) (2/10)) (3/10)) := rfl
  have hminv : min (min ((1:ℚ)/10) (2/10)) (3/10) = 1/10 := by
    rw [min_eq_left (by norm_num : (1:ℚ)/10 ≤ 2/10),
      min_eq_left (by norm_num : (1:ℚ)/10 ≤ 3/10)]
  have hmax : (runCalls (PerformanceMetrics.init 100 0) responses123).metrics.max_response_time =
      max (max (max 0 (1/10)) (2/10)) (3/10) := rfl
  have hmaxv : max (max (max (0:ℚ) (1/10)) (2/10)) (3/10) = 3/10 := by
    rw [max_eq_right (by norm_num : (0:ℚ) ≤ 1/10),
      max_eq_right (by norm_num : (1:ℚ)/10 ≤ 2/10),
      max_eq_right (by norm_num : (2:ℚ)/10 ≤ 3/10)]
  have htrt : (runCalls (PerformanceMetrics.init 100 0) responses123).metrics.total_response_time =
      ((0 + 1/10) + 2/10) + 3/10 := rfl
  have havg : (runCalls (PerformanceMetrics.init 100 0) responses123).metrics.average_response_time =
      (((0 + 1/10) + 2/10) + 3/10) / ((3:ℕ) : ℚ) := rfl
  have havgv : ((((0:ℚ) + 1/10) + 2/10) + 3/10) / ((3:ℕ) : ℚ) = 1/5 := by
    push_cast
    norm_num
  refine ⟨?_, ?_, ?_, ?_, ?_⟩
  · show pyRound
      (match (runCalls (PerformanceMetrics.init 100 0) responses123).metrics.min_response_time with
        | none => 0
        | some v => v) 4 = 1/10
    rw [hmin]
    show pyRound (min (min (1/10) (2/10)) (3/10)) 4 = 1/10
    rw [hminv]
    exact pyRound_eq_self _ _ 1000 (by norm_num)
  · show pyRound
      (runCalls (PerformanceMetrics.init 100 0) responses123).metrics.max_response_time 4 = 3/10
    rw [hmax, hmaxv]
    exact pyRound_eq_self _ _ 3000 (by norm_num)
  · show pyRound
      (runCalls (PerformanceMetrics.init 100 0) responses123).metrics.average_response_time 4 = 1/5
    rw [havg, havgv]
    exact pyRound_eq_self _ _ 2000 (by norm_num)
  · rw [htrt]
    norm_num
  · rw [havg, havgv]
    norm_num

/-- C9: the query handlers return an error envelope exactly when the limit
argument is not a positive integer, and a success envelope otherwise whose
data holds at most `min(limit, 100)` records for the request history and at
most `min(limit, 50)` for the error log. -/
theorem c9_handler_validation (s : PerformanceMetrics) (la : LimitArg) :
    ((get_request_history s la).isErr = !la.isPosInt) ∧
    ((get_error_log s la).isErr = !la.isPosInt) ∧
    (get_request_history s la).dataLength ≤ min la.capNat 100 ∧
    (get_error_log s la).dataLength ≤ min la.capNat 50 := by
  cases la with
  | nonInt =>
    simp [get_request_history, get_error_log, LimitArg.isPosInt, LimitArg.capNat,
      Envelope.isErr, Envelope.dataLength]
  | int l =>
    by_cases hl : l < 1
    · have h1 : ¬ (1 ≤ l) := by omega
      simp [get_request_history, get_error_log, LimitArg.isPosInt, LimitArg.capNat,
        Envelope.isErr, Envelope.dataLength, hl, h1]
    · have h1 : (1 : ℤ) ≤ l := by omega
      have hcap100 : (0 : ℤ) < min l 100 := by omega
      have hcap50 : (0 : ℤ) < min l 50 := by omega
      simp only [get_request_history, get_error_log, if_neg hl,
        LimitArg.isPosInt, LimitArg.capNat, Envelope.isErr, Envelope.dataLength,
        decide_eq_true h1, Bool.not_true]
      refine ⟨trivial, trivial, ?_, ?_⟩
      · rw [get_request_history_some s _ hcap100, List.length_drop]
        omega
      · rw [get_error_log_some s _ hcap50, List.length_drop]
        omega

/-- C10: every invalid input to `simulate_agent_task` yields an error
envelope and still mutates the shared accumulator: the total and failed
counters are incremented and the validation message is appended to the
bounded error log, so validation failures are not state-preserving. -/
theorem c10_validation_mutates (s : PerformanceMetrics) (now : ℕ) (rt : ℚ)
    (tn : TaskNameArg) (dur : DurationArg) (sf : ShouldFailArg) (msg : String)
    (h : validateTask tn dur sf = some msg) :
    (simulate_agent_task s now rt tn dur sf).1.status = "error" ∧
    (simulate_agent_task s now rt tn dur sf).1.message = msg ∧
    (simulate_agent_task s now rt tn dur sf).2.metrics.total_requests =
      s.metrics.total_requests + 1 ∧
    (simulate_agent_task s now rt tn dur sf).2.metrics.failed_requests =
      s.metrics.failed_requests + 1 ∧
    (simulate_agent_task s now rt tn dur sf).2.error_log =
      dequeAppend 50 s.error_log
        { timestamp := now, endpoint := "simulate_agent_task:" ++ tn.render, error := msg } := by
  have hne := validateTask_msg_ne_empty tn dur sf msg h
  simp only [simulate_agent_task, h]
  refine ⟨trivial, trivial, rfl, rfl, ?_⟩
  simp [PerformanceMetrics.record_request, hne]

/-- Witness for C10 at a concrete invalid (non-string) task name. -/
theorem c10_witness :
    validateTask (TaskNameArg.nonStr "x") DurationArg.nonNum ShouldFailArg.nonBool =
      some "Task name must be a non-empty string" ∧
    ((simulate_agent_task (PerformanceMetrics.init 100 0) 1 0 (TaskNameArg.nonStr "x")
        DurationArg.nonNum ShouldFailArg.nonBool).1.status = "error" ∧
     (simulate_agent_task (PerformanceMetrics.init 100 0) 1 0 (TaskNameArg.nonStr "x")
        DurationArg.nonNum ShouldFailArg.nonBool).1.message =
       "Task name must be a non-empty string" ∧
     (simulate_agent_task (PerformanceMetrics.init 100 0) 1 0 (TaskNameArg.nonStr "x")
        DurationArg.nonNum ShouldFailArg.nonBool).2.metrics.total_requests =
       (PerformanceMetrics.init 100 0).metrics.total_requests + 1 ∧
     (simulate_agent_task (PerformanceMetrics.init 100 0) 1 0 (TaskNameArg.nonStr "x")
        DurationArg.nonNum ShouldFailArg.nonBool).2.metrics.failed_requests =
       (PerformanceMetrics.init 100 0).metrics.failed_requests + 1 ∧
     (simulate_agent_task (PerformanceMetrics.init 100 0) 1 0 (TaskNameArg.nonStr "x")
        DurationArg.nonNum ShouldFailArg.nonBool).2.error_log =
       dequeAppend 50 (PerformanceMetrics.init 100 0).error_log
         { timestamp := 1,
           endpoint := "simulate_agent_task:" ++ (TaskNameArg.nonStr "x").render,
           error := "Task name must be a non-empty string" }) :=
  ⟨rfl, c10_validation_mutates (PerformanceMetrics.init 100 0) 1 0 (TaskNameArg.nonStr "x")
    DurationArg.nonNum ShouldFailArg.nonBool "Task name must be a non-empty string" rfl⟩
